import Mathlib

/-!
Verification of the pydantic validation schemas of a calculator-style CRUD
API (files app/schemas/base.py and app/schemas/calculation.py).

Modelling conventions of this shallow embedding:
- Incoming JSON / Python values are modelled by the inductive type `Value`
  (null, bool, int, float, string).  Python floats are idealised as exact
  rationals: the validators only pass operands through and compare them with
  zero, so no rounding behaviour is observable at this layer.
- Each pydantic schema is embedded as a Lean function from a payload
  structure to `Except String model`: the source field validators run in
  field declaration order, followed by the model validators, exactly as
  pydantic executes them; the embedding reports the first error (pydantic
  collects one error per failing field, and every claim below concerns
  payloads with a single failing field).
- The layers pydantic itself supplies (lax float coercion, enum parsing,
  min/max length constraints) are embedded with the pydantic-v2 semantics
  and error texts: lax mode coerces int and numeric-string inputs to float
  but rejects bool (pydantic-core uses exact type checks, so bool is not a
  number there), and enum parsing matches the enum values exactly.
  UUID and datetime server fields are abstracted to opaque `Nat` tokens:
  the claims under study never inspect them.
- Python string methods are re-implemented structurally (`pyLower`,
  `pyStrip`) so that every definition evaluates inside the kernel; they
  agree with CPython on the ASCII inputs the claims use.
-/

deriving instance DecidableEq for Except

/-- JSON-like value as seen by the validation layer before coercion. -/
inductive Value where
  | vnull
  | vbool (b : Bool)
  | vint (n : Int)
  | vfloat (x : ℚ)
  | vstr (s : String)
  deriving DecidableEq, Repr

/-- ASCII lower-casing of one character, as Python str.lower does on ASCII. -/
def lowerChar (c : Char) : Char :=
  if c.isUpper then Char.ofNat (c.toNat + 32) else c

/-- Model of Python str.lower (ASCII range). -/
def pyLower (s : String) : String := ⟨s.data.map lowerChar⟩

/-- Characters removed by Python str.strip: space, tab, newline, carriage
return, vertical tab, form feed. -/
def pySpace (c : Char) : Bool :=
  c == ' ' || c == '\t' || c == '\n' || c == '\r' || c == '\x0b' || c == '\x0c'

/-- Model of Python str.strip. -/
def pyStrip (s : String) : String :=
  ⟨((s.data.dropWhile pySpace).reverse.dropWhile pySpace).reverse⟩

/-- Membership in the character class of the name regex
^[a-zA-Z\s\-\x27]+$ : letters, whitespace, hyphen, apostrophe. -/
def nameChar (c : Char) : Bool :=
  c.isAlpha || pySpace c || c == '-' || c == '\x27'

/-- Full-string match of the name regex ^[a-zA-Z\s\-\x27]+$ (the + requires
at least one character). -/
def matchesNameCharset (s : String) : Bool :=
  !s.data.isEmpty && s.data.all nameChar

/-- Membership in the character class of the username regex
^[a-zA-Z0-9_-]+$. -/
def usernameChar (c : Char) : Bool :=
  c.isAlphanum || c == '_' || c == '-'

/-- Full-string match of the username regex ^[a-zA-Z0-9_-]+$. -/
def matchesUsernameCharset (s : String) : Bool :=
  !s.data.isEmpty && s.data.all usernameChar

/-- Match of the username start regex ^[a-zA-Z0-9] : the first character
must be alphanumeric. -/
def startsAlphanum (s : String) : Bool :=
  match s.data with
  | [] => false
  | c :: _ => c.isAlphanum

/-- UserBase.validate_name from app/schemas/base.py: reject empty or
whitespace-only input, strip, then require the name regex on the stripped
value; returns the stripped name. -/
def validate_name (v : String) : Except String String :=
  if v = "" ∨ pyStrip v = "" then
    .error "Name cannot be empty or whitespace only"
  else if matchesNameCharset (pyStrip v) then .ok (pyStrip v)
  else .error "Name can only contain letters, spaces, hyphens, and apostrophes"

/-- Pipeline of the first_name / last_name fields: the pydantic length
constraints min_length=1 and max_length=50 run on the raw string before the
mode="after" field validator validate_name. -/
def validate_name_field (v : String) : Except String String :=
  if v.length < 1 then .error "String should have at least 1 character"
  else if v.length > 50 then .error "String should have at most 50 characters"
  else validate_name v

/-- UserBase.validate_username from app/schemas/base.py: reject empty or
whitespace-only input, strip, require the charset regex, then require an
alphanumeric first character; returns the stripped username. -/
def validate_username (v : String) : Except String String :=
  if v = "" ∨ pyStrip v = "" then
    .error "Username cannot be empty or whitespace only"
  else if !matchesUsernameCharset (pyStrip v) then
    .error "Username can only contain letters, numbers, underscores, and hyphens"
  else if !startsAlphanum (pyStrip v) then
    .error "Username must start with a letter or number"
  else .ok (pyStrip v)

/-- Pipeline of the username field: pydantic length constraints
min_length=3 and max_length=50 on the raw string, then validate_username. -/
def validate_username_field (v : String) : Except String String :=
  if v.length < 3 then .error "String should have at least 3 characters"
  else if v.length > 50 then .error "String should have at most 50 characters"
  else validate_username v

/-- Failure modes of the password validator.  A ValueError raised inside a
validator is what pydantic turns into a reported validation message; the
required branch of the source instead calls
ValidationError("Password is required", model=cls), a v1-style construction
that pydantic v2 forbids (direct instantiation of ValidationError raises
TypeError), so that branch crashes before any validation message exists. -/
inductive PasswordFailure where
  | typeError
  | valueError (msg : String)
  deriving DecidableEq, Repr

/-- PasswordMixin.validate_password from app/schemas/base.py, a
mode="before" model validator over the raw payload: on a missing or empty
password the attempted ValidationError construction crashes with a
TypeError (no "Password is required" message is ever reported); otherwise
length, uppercase, lowercase and digit rules are checked in that order,
each raising a ValueError on first violation.  `none` models an absent
password key, `some ""` an empty one. -/
def validate_password (pw : Option String) : Except PasswordFailure Unit :=
  match pw with
  | none => .error .typeError
  | some p =>
    if p = "" then .error .typeError
    else if p.length < 6 then .error (.valueError "Password must be at least 6 characters long")
    else if !p.data.any Char.isUpper then
      .error (.valueError "Password must contain at least one uppercase letter")
    else if !p.data.any Char.isLower then
      .error (.valueError "Password must contain at least one lowercase letter")
    else if !p.data.any Char.isDigit then
      .error (.valueError "Password must contain at least one digit")
    else .ok ()

/-- Modelled from the spec: the ordered list of password rules after the
required rule, each paired with its error message — used only to state the
first-violated-rule-wins claim as a refinement of validate_password. -/
def passwordRules : List ((String → Bool) × String) :=
  [ (fun p => decide (6 ≤ p.length), "Password must be at least 6 characters long"),
    (fun p => p.data.any Char.isUpper, "Password must contain at least one uppercase letter"),
    (fun p => p.data.any Char.isLower, "Password must contain at least one lowercase letter"),
    (fun p => p.data.any Char.isDigit, "Password must contain at least one digit") ]

/-- Modelled from the spec: the first violated rule in the order required →
length → uppercase → lowercase → digit, or none when all rules hold. -/
def passwordFirstViolation (pw : Option String) : Option String :=
  match pw with
  | none => some "Password is required"
  | some p =>
    if p = "" then some "Password is required"
    else (passwordRules.find? (fun r => !r.1 p)).map Prod.snd

/-- UserRead output model from app/schemas/base.py: the read schema
declares id, activity flags, timestamps and the UserBase fields, and no
password field.  UUIDs and datetimes are abstracted to Nat tokens. -/
structure UserRead where
  id : Nat
  username : String
  email : String
  first_name : String
  last_name : String
  is_active : Bool
  is_verified : Bool
  last_login : Option Nat
  created_at : Nat
  updated_at : Nat
  deriving DecidableEq, Repr

/-- Serialization of a UserRead instance (pydantic model_dump): one entry
per declared field, in declaration order; with the default configuration no
other attribute of the source object is emitted. -/
def UserRead.model_dump (u : UserRead) : List (String × Value) :=
  [ ("id", .vint u.id),
    ("username", .vstr u.username),
    ("email", .vstr u.email),
    ("first_name", .vstr u.first_name),
    ("last_name", .vstr u.last_name),
    ("is_active", .vbool u.is_active),
    ("is_verified", .vbool u.is_verified),
    ("last_login", match u.last_login with | none => .vnull | some t => .vint t),
    ("created_at", .vint u.created_at),
    ("updated_at", .vint u.updated_at) ]

/-- The four members of the CalculationType enum from
app/schemas/calculation.py. -/
inductive CalculationType where
  | addition
  | subtraction
  | multiplication
  | division
  deriving DecidableEq, Repr

/-- String value of a CalculationType member (the enum inherits str, so
this is also how a member serialises and lower-cases). -/
def CalculationType.val : CalculationType → String
  | .addition => "addition"
  | .subtraction => "subtraction"
  | .multiplication => "multiplication"
  | .division => "division"

/-- Set of allowed enum values, in enum declaration order (the Python set
comprehension over CalculationType). -/
def allowedTypeValues : List String :=
  ["addition", "subtraction", "multiplication", "division"]

/-- Strict lexicographic comparison on strings, used to model the Python
built-in sorted over the allowed values. -/
def strLtB : List Char → List Char → Bool
  | [], [] => false
  | [], _ :: _ => true
  | _ :: _, [] => false
  | c :: cs, d :: ds => if c < d then true else if d < c then false else strLtB cs ds

/-- Insertion step of the string sort. -/
def insertSorted (s : String) : List String → List String
  | [] => [s]
  | t :: rest => if strLtB s.data t.data then s :: t :: rest else t :: insertSorted s rest

/-- Model of the Python built-in sorted on a list of strings. -/
def sortStrings : List String → List String
  | [] => []
  | s :: rest => insertSorted s (sortStrings rest)

/-- Model of ", ".join. -/
def joinComma : List String → String
  | [] => ""
  | [s] => s
  | s :: rest => s ++ ", " ++ joinComma rest

/-- Error text built by CalculationBase.validate_type: the allowed set in
sorted order, comma-joined. -/
def typeErrorMessage : String :=
  "Type must be one of: " ++ joinComma (sortStrings allowedTypeValues)

/-- CalculationBase.validate_type from app/schemas/calculation.py, a
mode="before" field validator: lower-case string input, then require
membership in the allowed enum values; any other value is rejected with the
sorted-list message. -/
def validate_type (v : Value) : Except String Value :=
  let v := match v with
    | .vstr s => Value.vstr (pyLower s)
    | other => other
  match v with
  | .vstr s => if s ∈ allowedTypeValues then .ok (.vstr s) else .error typeErrorMessage
  | _ => .error typeErrorMessage

/-- Exact-match parse of an enum value string. -/
def CalculationType.fromString? : String → Option CalculationType
  | "addition" => some .addition
  | "subtraction" => some .subtraction
  | "multiplication" => some .multiplication
  | "division" => some .division
  | _ => none

/-- Error text pydantic v2 emits for an invalid enum input. -/
def enumErrorMessage : String :=
  "Input should be \x27addition\x27, \x27subtraction\x27, \x27multiplication\x27 or \x27division\x27"

/-- Standard pydantic-v2 parsing of a CalculationType field (applied to the
output of a before-validator when one is declared, or directly to the
payload value otherwise): the enum values are matched exactly, with no case
folding. -/
def pydanticParseEnum (v : Value) : Except String CalculationType :=
  match v with
  | .vstr s =>
    match CalculationType.fromString? s with
    | some t => .ok t
    | none => .error enumErrorMessage
  | _ => .error enumErrorMessage

/-- CalculationBase.validate_operand_exists_and_float from
app/schemas/calculation.py, a mode="before" field validator on a and b:
None is rejected as a missing operand; any value that is not a Python float
or int — a bool is an int instance, so it passes — is rejected with the
custom float message; accepted values pass through unchanged. -/
def validate_operand_exists_and_float (v : Value) : Except String Value :=
  match v with
  | .vnull => .error "Both operands \x27a\x27 and \x27b\x27 must be provided"
  | .vbool b => .ok (.vbool b)
  | .vint n => .ok (.vint n)
  | .vfloat x => .ok (.vfloat x)
  | .vstr _ => .error "Input should be a valid float"

/-- Numeric value of a digit run, most significant first. -/
def digitsToNat (ds : List Char) : Nat :=
  ds.foldl (fun n c => 10 * n + (c.toNat - 48)) 0

/-- Parse of a float literal as pydantic-core lax mode accepts from a
string: optional sign, decimal digits with an optional point (at least one
digit overall), optional exponent part.  The special values inf and nan and
underscore separators are not modelled; the result is the exact rational,
rounding to binary floating point being outside this layer. -/
def pyFloatOfString? (s : String) : Option ℚ :=
  let cs := s.data
  let signAndRest : ℚ × List Char :=
    match cs with
    | '+' :: r => (1, r)
    | '-' :: r => (-1, r)
    | _ => (1, cs)
  let sign := signAndRest.1
  let cs1 := signAndRest.2
  let intDs := cs1.takeWhile Char.isDigit
  let rest1 := cs1.dropWhile Char.isDigit
  let fracAndRest : List Char × List Char :=
    match rest1 with
    | '.' :: r => (r.takeWhile Char.isDigit, r.dropWhile Char.isDigit)
    | _ => ([], rest1)
  let fracDs := fracAndRest.1
  let rest2 := fracAndRest.2
  if intDs.isEmpty && fracDs.isEmpty then none
  else
    let mant : ℚ :=
      sign * ((digitsToNat intDs : ℚ) + (digitsToNat fracDs : ℚ) / ((10 : ℚ) ^ fracDs.length))
    match rest2 with
    | [] => some mant
    | e :: r =>
      if e == 'e' || e == 'E' then
        let esignAndRest : Int × List Char :=
          match r with
          | '+' :: rr => (1, rr)
          | '-' :: rr => (-1, rr)
          | _ => (1, r)
        let eDs := esignAndRest.2.takeWhile Char.isDigit
        let rest3 := esignAndRest.2.dropWhile Char.isDigit
        if eDs.isEmpty || !rest3.isEmpty then none
        else some (mant * (10 : ℚ) ^ (esignAndRest.1 * (digitsToNat eDs : Int)))
      else none

/-- Standard pydantic-v2 lax coercion to a float field: floats pass, ints
are widened, parseable strings are parsed, and everything else — including
bool, which pydantic-core excludes from the numeric types by exact type
check — is rejected with the float_type message. -/
def pydanticLaxFloat (v : Value) : Except String ℚ :=
  match v with
  | .vfloat x => .ok x
  | .vint n => .ok (n : ℚ)
  | .vstr s =>
    match pyFloatOfString? s with
    | some x => .ok x
    | none => .error "Input should be a valid number, unable to parse string as a number"
  | .vbool _ => .error "Input should be a valid number"
  | .vnull => .error "Input should be a valid number"

/-- Validation of one operand field of CalculationBase: the before
validator, then standard lax float coercion of what it returned. -/
def validateOperandField (v : Value) : Except String ℚ := do
  let v ← validate_operand_exists_and_float v
  pydanticLaxFloat v

/-- Validation of the type field of CalculationBase: the before validator,
then standard enum parsing of what it returned. -/
def validateTypeField (v : Value) : Except String CalculationType := do
  let v ← validate_type v
  pydanticParseEnum v

/-- Raw payload of CalculationBase: the three client-supplied fields. -/
structure CalcPayload where
  a : Value
  b : Value
  type : Value
  deriving DecidableEq, Repr

/-- Fully validated CalculationBase model. -/
structure Calculation where
  a : ℚ
  b : ℚ
  type : CalculationType
  deriving DecidableEq, Repr

/-- CalculationBase.validate_operands from app/schemas/calculation.py, the
mode="after" model validator: reject a division whose divisor equals zero,
otherwise return the model unchanged. -/
def CalculationBase.validate_operands (m : Calculation) : Except String Calculation :=
  if m.type = .division ∧ m.b = 0 then .error "Cannot divide by zero"
  else .ok m

/-- Full validation pipeline of CalculationBase: fields a, b, type in
declaration order, then the after-model validator. -/
def CalculationBase.validate (p : CalcPayload) : Except String Calculation := do
  let a ← validateOperandField p.a
  let b ← validateOperandField p.b
  let t ← validateTypeField p.type
  CalculationBase.validate_operands ⟨a, b, t⟩

/-- Raw payload of CalculationCreate: the base fields plus user_id, the
UUID abstracted to a Nat token (pydantic would also parse a UUID string;
that parse is outside the claims under study). -/
structure CalcCreatePayload where
  a : Value
  b : Value
  type : Value
  user_id : Nat
  deriving DecidableEq, Repr

/-- Fully validated CalculationCreate model: the base model plus the
owner reference. -/
structure CalculationCreateModel where
  base : Calculation
  user_id : Nat
  deriving DecidableEq, Repr

/-- Full validation pipeline of CalculationCreate: the inherited base
fields and validators, plus the user_id field. -/
def CalculationCreate.validate (p : CalcCreatePayload) : Except String CalculationCreateModel := do
  let a ← validateOperandField p.a
  let b ← validateOperandField p.b
  let t ← validateTypeField p.type
  let c ← CalculationBase.validate_operands ⟨a, b, t⟩
  .ok ⟨c, p.user_id⟩

/-- Raw payload of CalculationUpdate: all three fields optional at the
field level, `vnull` standing for an omitted key (the field default None).
CalculationUpdate inherits BaseModel directly, so none of the
CalculationBase field validators applies here. -/
structure CalcUpdatePayload where
  a : Value
  b : Value
  type : Value
  deriving DecidableEq, Repr

/-- Fully validated CalculationUpdate model. -/
structure CalculationUpdateModel where
  a : Option ℚ
  b : Option ℚ
  type : Option CalculationType
  deriving DecidableEq, Repr

/-- Standard pydantic handling of an Optional field: None passes through,
anything else goes to the inner coercion. -/
def pydanticOptional {α : Type} (f : Value → Except String α) : Value → Except String (Option α)
  | .vnull => .ok none
  | v => (f v).map some

/-- CalculationUpdate.validate_operands from app/schemas/calculation.py,
the mode="after" model validator of the update schema: both operands must
be present, and a division with divisor zero is rejected. -/
def CalculationUpdate.validate_operands (m : CalculationUpdateModel) : Except String CalculationUpdateModel :=
  if m.a = none ∨ m.b = none then
    .error "Both operands \x27a\x27 and \x27b\x27 must be provided for update"
  else if m.type = some .division ∧ m.b = some 0 then
    .error "Cannot divide by zero"
  else .ok m

/-- Full validation pipeline of CalculationUpdate: plain optional-field
coercion (no custom field validators), then the after-model validator. -/
def CalculationUpdate.validate (p : CalcUpdatePayload) : Except String CalculationUpdateModel := do
  let a ← pydanticOptional pydanticLaxFloat p.a
  let b ← pydanticOptional pydanticLaxFloat p.b
  let t ← pydanticOptional pydanticParseEnum p.type
  CalculationUpdate.validate_operands ⟨a, b, t⟩

/-- Raw payload of CalculationRead: the base fields plus the
server-assigned fields; id, user_id and the timestamps are abstracted to
Nat tokens, result goes through the standard float coercion (no custom
validator is declared for it). -/
structure CalcReadPayload where
  a : Value
  b : Value
  type : Value
  id : Nat
  user_id : Nat
  result : Value
  created_at : Nat
  updated_at : Nat
  deriving DecidableEq, Repr

/-- Fully validated CalculationRead model. -/
structure CalculationReadModel where
  base : Calculation
  id : Nat
  user_id : Nat
  result : ℚ
  created_at : Nat
  updated_at : Nat
  deriving DecidableEq, Repr

/-- Full validation pipeline of CalculationRead: the inherited base fields
and validators (including the division-by-zero model validator), plus the
server fields. -/
def CalculationRead.validate (p : CalcReadPayload) : Except String CalculationReadModel := do
  let a ← validateOperandField p.a
  let b ← validateOperandField p.b
  let t ← validateTypeField p.type
  let r ← pydanticLaxFloat p.result
  let c ← CalculationBase.validate_operands ⟨a, b, t⟩
  .ok ⟨c, p.id, p.user_id, r, p.created_at, p.updated_at⟩

/-! Helper lemmas shared by the claim theorems. -/

/-- Equality of strings is equality of their character lists. -/
theorem string_eq_iff_data {s t : String} : s = t ↔ s.data = t.data :=
  ⟨fun h => h ▸ rfl, fun h => by cases s; cases t; exact congrArg String.mk h⟩

/-- Inversion of a successful Except bind. -/
theorem exceptBind_ok {α β : Type} {e : Except String α} {f : α → Except String β} {b : β} :
    e >>= f = .ok b ↔ ∃ a, e = .ok a ∧ f a = .ok b := by
  cases e <;> simp [Bind.bind, Except.bind]

/-- A float operand passes the operand field of CalculationBase unchanged. -/
theorem operandField_vfloat (q : ℚ) : validateOperandField (.vfloat q) = .ok q := rfl

/-- An int operand passes the operand field of CalculationBase, widened. -/
theorem operandField_vint (n : ℤ) : validateOperandField (.vint n) = .ok (n : ℚ) := rfl

/-- The serialized value of an enum member round-trips through the type
field of CalculationBase. -/
theorem typeField_val (t : CalculationType) : validateTypeField (.vstr t.val) = .ok t := by
  cases t <;> rfl

/-- Inversion of a successful run of the base model validator. -/
theorem validate_operands_ok {c d : Calculation}
    (h : CalculationBase.validate_operands c = .ok d) :
    d = c ∧ ¬(c.type = .division ∧ c.b = 0) := by
  by_cases hc : c.type = .division ∧ c.b = 0
  · rw [CalculationBase.validate_operands, if_pos hc] at h
    exact Except.noConfusion h
  · rw [CalculationBase.validate_operands, if_neg hc] at h
    exact ⟨(Except.ok.inj h).symm, hc⟩

/-- A successful update validation forces both operands of the model to be
present and both payload operands to be non-null. -/
theorem update_ok_not_null {p : CalcUpdatePayload} {m : CalculationUpdateModel}
    (h : CalculationUpdate.validate p = .ok m) :
    m.a ≠ none ∧ m.b ≠ none ∧ p.a ≠ .vnull ∧ p.b ≠ .vnull := by
  unfold CalculationUpdate.validate at h
  rcases exceptBind_ok.mp h with ⟨a, ha, h⟩
  rcases exceptBind_ok.mp h with ⟨b, hb, h⟩
  rcases exceptBind_ok.mp h with ⟨t, ht, h⟩
  by_cases h1 : a = none ∨ b = none
  · rw [CalculationUpdate.validate_operands, if_pos h1] at h
    exact Except.noConfusion h
  · by_cases h2 : t = some CalculationType.division ∧ b = some 0
    · rw [CalculationUpdate.validate_operands, if_neg h1, if_pos h2] at h
      exact Except.noConfusion h
    · rw [CalculationUpdate.validate_operands, if_neg h1, if_neg h2] at h
      push_neg at h1
      have hm : m = ⟨a, b, t⟩ := (Except.ok.inj h).symm
      subst hm
      refine ⟨h1.1, h1.2, ?_, ?_⟩
      · intro hpa
        rw [hpa] at ha
        exact h1.1 (Except.ok.inj ha).symm
      · intro hpb
        rw [hpb] at hb
        exact h1.2 (Except.ok.inj hb).symm

/-! Claim theorems. -/

/-- C1: for payloads with numeric operands and type division, validation by
CalculationBase (and its Create and Read variants) fails with the message
"Cannot divide by zero" exactly when b equals zero, whatever a is; when b
is non-zero validation succeeds.  The check is the model validator itself:
the pipeline performs no division. -/
theorem division_by_zero_iff (qa qb : ℚ) (uid : Nat) :
    (CalculationBase.validate ⟨.vfloat qa, .vfloat qb, .vstr "division"⟩ =
        .error "Cannot divide by zero" ↔ qb = 0) ∧
    (qb ≠ 0 → CalculationBase.validate ⟨.vfloat qa, .vfloat qb, .vstr "division"⟩ =
        .ok ⟨qa, qb, .division⟩) ∧
    (CalculationCreate.validate ⟨.vfloat qa, .vfloat qb, .vstr "division", uid⟩ =
        .error "Cannot divide by zero" ↔ qb = 0) ∧
    (CalculationRead.validate ⟨.vfloat qa, .vfloat qb, .vstr "division", 0, uid, .vfloat 1, 0, 0⟩ =
        .error "Cannot divide by zero" ↔ qb = 0) := by
  have hbase : CalculationBase.validate ⟨.vfloat qa, .vfloat qb, .vstr "division"⟩
      = CalculationBase.validate_operands ⟨qa, qb, .division⟩ := rfl
  have hcreate : CalculationCreate.validate ⟨.vfloat qa, .vfloat qb, .vstr "division", uid⟩
      = CalculationBase.validate_operands ⟨qa, qb, .division⟩ >>= fun c => Except.ok ⟨c, uid⟩ := rfl
  have hread : CalculationRead.validate ⟨.vfloat qa, .vfloat qb, .vstr "division", 0, uid, .vfloat 1, 0, 0⟩
      = CalculationBase.validate_operands ⟨qa, qb, .division⟩ >>= fun c =>
          Except.ok ⟨c, 0, uid, 1, 0, 0⟩ := rfl
  rw [hbase, hcreate, hread]
  by_cases hb : qb = 0 <;>
    simp [CalculationBase.validate_operands, hb, Bind.bind, Except.bind]

/-- Witness for C1 at a = 100 with b = 0 and with b = 2. -/
theorem division_by_zero_iff_witness :
    CalculationBase.validate ⟨.vfloat 100, .vfloat 0, .vstr "division"⟩ =
        .error "Cannot divide by zero" ∧
    CalculationBase.validate ⟨.vfloat 100, .vfloat 2, .vstr "division"⟩ =
        .ok ⟨100, 2, .division⟩ :=
  ⟨(division_by_zero_iff 100 0 0).1.mpr rfl,
   (division_by_zero_iff 100 2 0).2.1 (by norm_num)⟩

/-- C9: the UserRead serialization never contains a password key, whatever
the record holds — the schema declares no password field at all. -/
theorem userread_never_serializes_password (u : UserRead) :
    "password" ∉ (UserRead.model_dump u).map Prod.fst := by
  have hkeys : (UserRead.model_dump u).map Prod.fst =
      ["id", "username", "email", "first_name", "last_name", "is_active",
       "is_verified", "last_login", "created_at", "updated_at"] := rfl
  rw [hkeys]
  decide

/-- C10 counterexample: a boolean operand does not make the payload
validate; pydantic rejects the bool during standard float coercion, so
a = true, b = 2, type = addition errors instead of succeeding with a
normalized to 1.0. -/
theorem bool_operand_counterexample :
    CalculationBase.validate ⟨.vbool true, .vint 2, .vstr "addition"⟩ =
        .error "Input should be a valid number" ∧
    CalculationBase.validate ⟨.vbool true, .vint 2, .vstr "addition"⟩ ≠
        .ok ⟨1, 2, .addition⟩ := by decide

/-- C10 amended: a boolean passes the operand before-validator of
CalculationBase (the isinstance check counts bool as int), but the standard
float coercion that follows rejects it as non-numeric, so the example
payload fails validation rather than normalizing a to 1.0. -/
theorem bool_operand_passes_validator_fails_coercion :
    (∀ bl : Bool, validate_operand_exists_and_float (.vbool bl) = .ok (.vbool bl)) ∧
    (∀ bl : Bool, pydanticLaxFloat (.vbool bl) = .error "Input should be a valid number") ∧
    CalculationBase.validate ⟨.vbool true, .vint 2, .vstr "addition"⟩ =
        .error "Input should be a valid number" :=
  ⟨fun _ => rfl, fun _ => rfl, by decide⟩

/-- C2 counterexample: the update variant does not lower-case the type
before enum parsing — the payload a = 1, b = 2, type = "Addition" is
rejected by CalculationUpdate with the pydantic enum message instead of
being accepted and stored as addition. -/
theorem update_type_case_counterexample :
    CalculationUpdate.validate ⟨.vint 1, .vint 2, .vstr "Addition"⟩ = .error enumErrorMessage ∧
    CalculationUpdate.validate ⟨.vint 1, .vint 2, .vstr "Addition"⟩ ≠
        .ok ⟨some 1, some 2, some .addition⟩ := by decide

/-- C2 amended: in the base, create and read variants a text type is
lower-cased before enum parsing, must land in the allowed set, and is
otherwise rejected with a message listing the allowed set in sorted order;
accepted values are stored in canonical lowercase.  The update variant has
no such validator: its type field is parsed against the exact enum values,
so only already-lowercase text is accepted there. -/
theorem type_normalization (s : String) :
    (validate_type (.vstr s) = .ok (.vstr (pyLower s)) ↔ pyLower s ∈ allowedTypeValues) ∧
    (pyLower s ∉ allowedTypeValues → validate_type (.vstr s) = .error typeErrorMessage) ∧
    typeErrorMessage = "Type must be one of: addition, division, multiplication, subtraction" ∧
    CalculationBase.validate ⟨.vint 1, .vint 2, .vstr "Addition"⟩ = .ok ⟨1, 2, .addition⟩ ∧
    CalculationRead.validate ⟨.vint 10, .vint 5, .vstr "ADDITION", 0, 0, .vint 15, 0, 0⟩ =
        .ok ⟨⟨10, 5, .addition⟩, 0, 0, 15, 0, 0⟩ ∧
    CalculationUpdate.validate ⟨.vint 1, .vint 2, .vstr "addition"⟩ =
        .ok ⟨some 1, some 2, some .addition⟩ := by
  refine ⟨?_, ?_, by decide, by decide, by decide, by decide⟩
  · simp only [validate_type]
    by_cases h : pyLower s ∈ allowedTypeValues
    · simp [h]
    · simp [h]
  · intro h
    simp only [validate_type]
    simp [h]

/-- Witness for C2 at the invalid type string "modulus". -/
theorem type_normalization_witness :
    validate_type (.vstr "modulus") = .error typeErrorMessage :=
  (type_normalization "modulus").2.1 (by decide)

/-- C3: a CalculationUpdate payload validates only when both operands are
non-null even though the fields are declared optional; supplying both with
no type succeeds (a = 42, b = 7), and omitting either operand is rejected. -/
theorem update_requires_both_operands (p : CalcUpdatePayload) (m : CalculationUpdateModel) :
    (CalculationUpdate.validate p = .ok m → p.a ≠ .vnull ∧ p.b ≠ .vnull) ∧
    ((p.a = .vnull ∨ p.b = .vnull) → ∃ msg, CalculationUpdate.validate p = .error msg) ∧
    CalculationUpdate.validate ⟨.vint 42, .vint 7, .vnull⟩ = .ok ⟨some 42, some 7, none⟩ := by
  refine ⟨fun h => ⟨(update_ok_not_null h).2.2.1, (update_ok_not_null h).2.2.2⟩, ?_, by decide⟩
  intro hnull
  cases hv : CalculationUpdate.validate p with
  | error msg => exact ⟨msg, rfl⟩
  | ok m2 =>
    rcases update_ok_not_null hv with ⟨-, -, hpa, hpb⟩
    cases hnull with
    | inl h => exact absurd h hpa
    | inr h => exact absurd h hpb

/-- Witness for C3 at a payload omitting operand a. -/
theorem update_requires_both_operands_witness :
    ∃ msg, CalculationUpdate.validate ⟨.vnull, .vint 7, .vnull⟩ = .error msg :=
  (update_requires_both_operands ⟨.vnull, .vint 7, .vnull⟩ ⟨none, none, none⟩).2.1 (Or.inl rfl)

/-- C4 counterexample: for the update variant a non-numeric operand is NOT
rejected with the message "Input should be a valid float" — the custom
operand validator of CalculationBase is not inherited by CalculationUpdate,
so the string "abc" for a is rejected by the standard pydantic float
coercion with its own distinct message. -/
theorem update_operand_message_counterexample :
    CalculationUpdate.validate ⟨.vstr "abc", .vint 7, .vnull⟩ =
        .error "Input should be a valid number, unable to parse string as a number" ∧
    "Input should be a valid number, unable to parse string as a number" ≠
        "Input should be a valid float" := by decide

/-- C4 amended: in the base, create and read variants the before-validator
rejects a null operand with the both-operands message and any non-int,
non-float value with "Input should be a valid float", while int and float
inputs are accepted interchangeably with float semantics.  The update
variant has no such validator: its null operands are rejected by the
after-model validator with the for-update message, and non-numeric values
fall through to the standard coercion with the pydantic number message. -/
theorem operand_validation_by_variant :
    validate_operand_exists_and_float .vnull =
        .error "Both operands \x27a\x27 and \x27b\x27 must be provided" ∧
    (∀ s : String, validate_operand_exists_and_float (.vstr s) =
        .error "Input should be a valid float") ∧
    (∀ n : ℤ, validateOperandField (.vint n) = .ok (n : ℚ)) ∧
    (∀ q : ℚ, validateOperandField (.vfloat q) = .ok q) ∧
    (∀ m : CalculationUpdateModel, m.a = none ∨ m.b = none →
        CalculationUpdate.validate_operands m =
          .error "Both operands \x27a\x27 and \x27b\x27 must be provided for update") ∧
    CalculationUpdate.validate ⟨.vstr "abc", .vint 7, .vnull⟩ =
        .error "Input should be a valid number, unable to parse string as a number" := by
  refine ⟨rfl, fun _ => rfl, fun _ => rfl, fun _ => rfl, ?_, by decide⟩
  intro m h
  rw [CalculationUpdate.validate_operands, if_pos h]

/-- Witness for C4 at an update model missing operand a. -/
theorem operand_validation_by_variant_witness :
    CalculationUpdate.validate_operands ⟨none, some 7, none⟩ =
        .error "Both operands \x27a\x27 and \x27b\x27 must be provided for update" :=
  operand_validation_by_variant.2.2.2.2.1 ⟨none, some 7, none⟩ (Or.inl rfl)

/-- C5: for a supplied non-empty password, validate_password reports the
first violated rule in the spec order length → uppercase → lowercase →
digit as a ValueError message (refinement against the spec-side rule list
minus its required rule), and in particular "alllower1" fails with the
missing-uppercase message; but at the failing inputs of a missing or empty
password the code crashes with a TypeError — the v1-style ValidationError
construction is impossible in pydantic v2 — so the "Password is required"
message of the required rule is never reported, where the claim and spec
say it is reported first. -/
theorem password_rule_order :
    (∀ p : String, p ≠ "" →
      validate_password (some p) =
        match passwordFirstViolation (some p) with
        | some msg => Except.error (PasswordFailure.valueError msg)
        | none => Except.ok ()) ∧
    validate_password none = .error .typeError ∧
    validate_password (some "") = .error .typeError ∧
    validate_password (some "alllower1") =
        .error (.valueError "Password must contain at least one uppercase letter") := by
  refine ⟨?_, rfl, by decide, by decide⟩
  intro p h0
  rcases Nat.lt_or_ge p.length 6 with h1 | h1
  · have hd : decide (6 ≤ p.length) = false := decide_eq_false (by omega)
    simp [validate_password, passwordFirstViolation, passwordRules, h0, h1, hd, List.find?]
  · have hd : decide (6 ≤ p.length) = true := decide_eq_true h1
    have hlt : ¬ p.length < 6 := by omega
    cases h2 : p.data.any Char.isUpper <;>
      cases h3 : p.data.any Char.isLower <;>
        cases h4 : p.data.any Char.isDigit <;>
          simp [validate_password, passwordFirstViolation, passwordRules,
                h0, hlt, hd, h2, h3, h4, List.find?]

/-- Witness for C5 at the non-empty password "short". -/
theorem password_rule_order_witness :
    validate_password (some "short") =
      match passwordFirstViolation (some "short") with
      | some msg => Except.error (PasswordFailure.valueError msg)
      | none => Except.ok () :=
  password_rule_order.1 "short" (by decide)

/-- C6 counterexample: the input " a " does not match ^[a-zA-Z0-9_-]+$ yet
validation accepts it (the regex only sees the stripped value), and the
accepted username "a" is 1 character long, not within 3 to 50 — the length
bound applies to the raw input before stripping. -/
theorem username_trim_counterexample :
    validate_username_field " a " = .ok "a" ∧
    matchesUsernameCharset " a " = false ∧
    ¬ 3 ≤ ("a" : String).length := by decide

/-- C6 amended: whenever the STRIPPED input fails the charset regex or does
not start alphanumeric, validation fails, with three pairwise distinct
messages for empty, invalid charset and bad start; an accepted username is
the stripped input, with the 3..50 length bound enforced on the raw string
before stripping (so the stored value may be shorter than 3). -/
theorem username_validation (v u : String) :
    ((matchesUsernameCharset (pyStrip v) = false ∨ startsAlphanum (pyStrip v) = false) →
      ∀ w, validate_username_field v ≠ .ok w) ∧
    (validate_username_field v = .ok u →
      u = pyStrip v ∧ 3 ≤ v.length ∧ v.length ≤ 50 ∧
        matchesUsernameCharset u = true ∧ startsAlphanum u = true) ∧
    ("Username cannot be empty or whitespace only" ≠
        "Username can only contain letters, numbers, underscores, and hyphens" ∧
      "Username cannot be empty or whitespace only" ≠
        "Username must start with a letter or number" ∧
      "Username can only contain letters, numbers, underscores, and hyphens" ≠
        "Username must start with a letter or number") := by
  refine ⟨?_, ?_, by decide⟩
  · intro hbad w hok
    unfold validate_username_field validate_username at hok
    split_ifs at hok with l1 l2 l3 l4 l5 <;> try exact Except.noConfusion hok
    rcases hbad with hb | hb
    · exact l4 (by simp [hb])
    · exact l5 (by simp [hb])
  · intro hok
    unfold validate_username_field validate_username at hok
    split_ifs at hok with l1 l2 l3 l4 l5 <;> try exact Except.noConfusion hok
    have hu : u = pyStrip v := (Except.ok.inj hok).symm
    subst hu
    exact ⟨rfl, by omega, by omega, by simpa using l4, by simpa using l5⟩

/-- Witness for C6 at the raw input "johndoe " (trailing space). -/
theorem username_validation_witness :
    "johndoe" = pyStrip "johndoe " ∧ 3 ≤ ("johndoe " : String).length ∧
      ("johndoe " : String).length ≤ 50 ∧
      matchesUsernameCharset "johndoe" = true ∧ startsAlphanum "johndoe" = true :=
  (username_validation "johndoe " "johndoe").2.1 (by decide)

/-- C7 counterexample: an input of two spaces followed by fifty letters is
rejected by the max_length constraint on the raw string although its
trimmed form is 50 characters long and matches the name regex, and the
reported error is a length message, not the empty/whitespace or invalid
characters one. -/
theorem name_length_pretrim_counterexample :
    validate_name_field "  AAAAAAAAAAAAAAAAAAAAAAAAAAAAAAAAAAAAAAAAAAAAAAAAAA" =
        .error "String should have at most 50 characters" ∧
    (pyStrip "  AAAAAAAAAAAAAAAAAAAAAAAAAAAAAAAAAAAAAAAAAAAAAAAAAA").length = 50 ∧
    matchesNameCharset (pyStrip "  AAAAAAAAAAAAAAAAAAAAAAAAAAAAAAAAAAAAAAAAAAAAAAAAAA") = true := by
  decide

/-- C7 amended: a name field validates exactly when the RAW string is 1..50
characters long and its stripped form matches ^[a-zA-Z\s\-\x27]+$ (hence is
non-empty); on success the stripped string is returned, and on failure the
error is a length message, the empty/whitespace message or the invalid
characters message. -/
theorem name_validation (v u msg : String) :
    (validate_name_field v = .ok u ↔
      (u = pyStrip v ∧ 1 ≤ v.length ∧ v.length ≤ 50 ∧
        matchesNameCharset (pyStrip v) = true)) ∧
    (validate_name_field v = .error msg →
      (msg = "String should have at least 1 character" ∨
       msg = "String should have at most 50 characters" ∨
       msg = "Name cannot be empty or whitespace only" ∨
       msg = "Name can only contain letters, spaces, hyphens, and apostrophes")) := by
  constructor
  · constructor
    · intro hok
      unfold validate_name_field validate_name at hok
      split_ifs at hok with l1 l2 l3 l4 <;> try exact Except.noConfusion hok
      exact ⟨(Except.ok.inj hok).symm, by omega, by omega, l4⟩
    · rintro ⟨hu, h1, h50, hm⟩
      have hne : ¬(v = "" ∨ pyStrip v = "") := by
        rintro (h | h)
        · rw [h] at hm
          exact absurd hm (by decide)
        · rw [h] at hm
          exact absurd hm (by decide)
      unfold validate_name_field validate_name
      rw [if_neg (show ¬ v.length < 1 by omega), if_neg (show ¬ v.length > 50 by omega),
        if_neg hne, if_pos hm, hu]
  · intro herr
    unfold validate_name_field validate_name at herr
    split_ifs at herr with l1 l2 l3 l4 <;>
      first
        | exact Except.noConfusion herr
        | exact Or.inl (Except.error.inj herr).symm
        | exact Or.inr (Or.inl (Except.error.inj herr).symm)
        | exact Or.inr (Or.inr (Or.inl (Except.error.inj herr).symm))
        | exact Or.inr (Or.inr (Or.inr (Except.error.inj herr).symm))

/-- Witness for C7 at the raw input " John " with output "John". -/
theorem name_validation_witness :
    validate_name_field " John " = .ok "John" :=
  (name_validation " John " "John" "").1.mpr (by decide)

/-- C8: a validated CalculationCreate payload, serialized back (operands as
floats, type as the enum value string) and extended with the server fields
id, result and timestamps, validates successfully as a CalculationRead
payload with identical a, b and type. -/
theorem create_read_roundtrip (p : CalcCreatePayload) (m : CalculationCreateModel)
    (idv ca ua : Nat) (r : ℚ)
    (h : CalculationCreate.validate p = .ok m) :
    CalculationRead.validate
        ⟨.vfloat m.base.a, .vfloat m.base.b, .vstr m.base.type.val, idv, m.user_id,
          .vfloat r, ca, ua⟩
      = .ok ⟨m.base, idv, m.user_id, r, ca, ua⟩ := by
  unfold CalculationCreate.validate at h
  rcases exceptBind_ok.mp h with ⟨a, ha, h⟩
  rcases exceptBind_ok.mp h with ⟨b, hb, h⟩
  rcases exceptBind_ok.mp h with ⟨t, ht, h⟩
  rcases exceptBind_ok.mp h with ⟨c, hc, h⟩
  rcases validate_operands_ok hc with ⟨hceq, hdiv⟩
  have hm : m = ⟨c, p.user_id⟩ := (Except.ok.inj h).symm
  subst hm
  subst hceq
  have hops : CalculationBase.validate_operands ⟨a, b, t⟩ = .ok ⟨a, b, t⟩ := by
    rw [CalculationBase.validate_operands, if_neg hdiv]
  simp [CalculationRead.validate, operandField_vfloat, typeField_val, hops,
        pydanticLaxFloat, Bind.bind, Except.bind]

/-- Witness for C8 at the create payload a = 2, b = 3, type = "addition",
user 5, with server fields id 9, result 5, timestamps 1 and 2. -/
theorem create_read_roundtrip_witness :
    CalculationRead.validate ⟨.vfloat 2, .vfloat 3, .vstr "addition", 9, 5, .vfloat 5, 1, 2⟩
      = .ok ⟨⟨2, 3, .addition⟩, 9, 5, 5, 1, 2⟩ :=
  create_read_roundtrip ⟨.vint 2, .vint 3, .vstr "addition", 5⟩ ⟨⟨2, 3, .addition⟩, 5⟩
    9 1 2 5 (by decide)
